import Mathlib

/-!
Verification of the data-processing-chain-protocol core against its
natural-language specification.

The development shallowly embeds the TypeScript sources:
  * `NodeSupervisor` (core/NodeSupervisor.ts): supervisor state, signal
    dispatch, chain start and the node-creation broadcast;
  * `DefaultReportingCallbacks.ts`: the broadcast-setup callback, the
    remote-service callback, the default monitoring resolver and the
    broadcast-reporting callback.

Modelling conventions:
  * JS `Map<string, Node>` becomes an insertion-ordered association list;
    the opaque fresh UUID node ids become naturals drawn from a counter.
  * Asynchronous effects (HTTP POSTs, log lines, thrown exceptions) become
    explicit values: functions return the list of emitted effects, and a
    thrown JS exception is an `Option String` / `Except` error value.
  * Nondeterministic inputs (`Date.now()`, `randomUUID()`) are parameters.
  * The injected collaborators that are not part of the repository sources
    (broadcast transport, `Node.execute`, `Node.sendData`) are parameters
    of the model, gathered in `Env`.
-/

set_option maxHeartbeats 1000000

namespace DPCP

/-- Node identifiers. The source assigns each `Node` a fresh unique string id
(`randomUUID`); we model the fresh-id supply as a counter of naturals. -/
abbrev NodeId := Nat

/-- Opaque pipeline payload (source: `type PipelineData = unknown`);
modelled as an opaque string. -/
abbrev PipelineData := String

/-- Node status values from `types.ts` (`NodeStatus`). -/
inductive NodeStatus where
  | pending
  | inProgress
  | completed
  | failed
  | paused
  deriving DecidableEq, Repr

/- The six supervisor signal strings from `types.ts` (`NodeSignal`). -/
namespace NodeSignal

def NODE_CREATE : String := "node_create"

def NODE_DELETE : String := "node_delete"

def NODE_PAUSE : String := "node_pause"

def NODE_DELAY : String := "node_delay"

def NODE_RUN : String := "node_run"

def NODE_SEND_DATA : String := "node_send_data"

end NodeSignal

/-- A `Node` as the supervisor sees it: id, dependencies, status, delay.
The processor pipeline and retained output live in `Node.ts`, which only
matters to the claims through the abstract `Env.execute`/`Env.sendData`. -/
structure Node where
  nodeId : NodeId
  dependencies : List NodeId
  status : NodeStatus
  delay : Nat
  deriving DecidableEq, Repr

/-- A freshly constructed node (`new Node(dependencies)`): status starts
`PENDING`, delay `0`. -/
def Node.mkFresh (nid : NodeId) (dependencies : List NodeId) : Node :=
  ⟨nid, dependencies, NodeStatus.pending, 0⟩

/-- Modelled from the spec: `Node.updateStatus` (Node.ts is not among the
sources) sets the node's status. -/
def Node.updateStatus (n : Node) (st : NodeStatus) : Node :=
  { n with status := st }

/-- Modelled from the spec: `Node.setDelay` (Node.ts is not among the
sources) stores the per-execution delay. -/
def Node.setDelay (n : Node) (d : Nat) : Node :=
  { n with delay := d }

/-- One stage of the chain configuration (`type ChainConfig` in
NodeSupervisor.ts): a list of target-service ids plus a location tag,
`"local"` or `"remote"` in the source's string union. -/
structure ChainConfig where
  services : List String
  location : String
  deriving DecidableEq, Repr

/-- A stage reduced to its services, as broadcast (`{ services }`). -/
structure ServicesOnly where
  services : List String
  deriving DecidableEq, Repr

/-- The `chain` body of a `BrodcastMessage` (types.ts, source's spelling). -/
structure ChainBody where
  id : String
  config : List ServicesOnly
  deriving DecidableEq, Repr

/-- `BrodcastMessage` from types.ts (source's spelling kept). -/
structure BrodcastMessage where
  signal : String
  chain : ChainBody
  deriving DecidableEq, Repr

/-- The supervisor's observable log, one constructor per `Logger` call site
in NodeSupervisor.ts.  `warn`/`error` call sites get distinct constructors so
that claims about warnings are expressible. -/
inductive LogEvent where
  | nodeCreated (nid : NodeId)
  | nodeNotFound (nid : NodeId)
  | nodeDeleted (nid : NodeId)
  | nodePaused (nid : NodeId)
  | nodeDelayed (nid : NodeId) (d : Nat)
  | unknownSignal (signal : String)
  | broadcastOk (chainId : String)
  | broadcastFailed (err : String)
  | sendFailed (nid : NodeId) (err : String)
  deriving DecidableEq, Repr

/-- `SupervisorPayload` is a dynamic record `{signal, ...}` in types.ts; we
model it as a record carrying every field any signal uses, defaulted. -/
structure SupervisorPayload where
  signal : String
  id : NodeId := 0
  delay : Nat := 0
  data : PipelineData := ""
  params : List NodeId := []
  deriving DecidableEq, Repr

/-- External collaborators of the supervisor that are injected or live in
source files not part of this snapshot:
  * `broadcast` — the injected broadcast transport
    (`setBroadcastFunction`); `none` means the returned promise resolved,
    `some e` that it rejected with message `e`;
  * `execute` — Modelled from the spec: `Node.execute` (Node.ts missing);
    an arbitrary node transformation plus an optional thrown error, which
    `runNode` does NOT catch;
  * `sendData` — Modelled from the spec: `Node.sendData` (Node.ts
    missing); an arbitrary node transformation plus an optional thrown
    error (e.g. a rethrown remote-service callback failure), which
    `sendNodeData` catches. -/
structure Env where
  broadcast : BrodcastMessage → Option String
  execute : Node → PipelineData → Node × Option String
  sendData : Node → Node × Option String

/-- State of the `NodeSupervisor` singleton: uid, the `nodes` map
(insertion-ordered association list), the optional `NodeMonitoring`
(membership list, Modelled from the spec since NodeMonitoring.ts is not
among the sources), the current chain config, and the fresh-id counter. -/
structure SupervisorState where
  uid : String
  nodes : List (NodeId × Node)
  hasMonitoring : Bool
  monitoringNodes : List NodeId
  chainConfig : List ChainConfig
  nextNodeId : NodeId
  deriving Repr

/-- First-match lookup in the `nodes` association list (`Map.get`). -/
def lookupNode : List (NodeId × Node) → NodeId → Option Node
  | [], _ => none
  | (k, v) :: rest, nid => if k = nid then some v else lookupNode rest nid

/-- In-place update of the first entry with the given key (`Map.set` on an
existing key preserves insertion order). -/
def updateNode : List (NodeId × Node) → NodeId → Node → List (NodeId × Node)
  | [], _, _ => []
  | (k, v) :: rest, nid, v' =>
    if k = nid then (k, v') :: rest else (k, v) :: updateNode rest nid v'

/-- Removal of the first entry with the given key (`Map.delete`). -/
def removeNode : List (NodeId × Node) → NodeId → List (NodeId × Node)
  | [], _ => []
  | (k, v) :: rest, nid =>
    if k = nid then rest else (k, v) :: removeNode rest nid

/-- `NodeSupervisor.createNode`: constructs a fresh node, registers it in
the `nodes` map, adds it to monitoring when monitoring is set, logs, and
returns the new id. -/
def SupervisorState.createNode (s : SupervisorState) (dependencies : List NodeId) :
    SupervisorState × NodeId × List LogEvent :=
  let node := Node.mkFresh s.nextNodeId dependencies
  let nid := node.nodeId
  ({ s with
      nodes := s.nodes ++ [(nid, node)],
      monitoringNodes :=
        if s.hasMonitoring then s.monitoringNodes ++ [nid] else s.monitoringNodes,
      nextNodeId := s.nextNodeId + 1 },
    nid, [LogEvent.nodeCreated nid])

/-- `NodeSupervisor.deleteNode`: removes the node if present (also from
monitoring), otherwise only warns. -/
def SupervisorState.deleteNode (s : SupervisorState) (nid : NodeId) :
    SupervisorState × List LogEvent :=
  if (lookupNode s.nodes nid).isSome then
    ({ s with
        nodes := removeNode s.nodes nid,
        monitoringNodes :=
          if s.hasMonitoring then s.monitoringNodes.filter (fun k => k != nid)
          else s.monitoringNodes },
      [LogEvent.nodeDeleted nid])
  else (s, [LogEvent.nodeNotFound nid])

/-- `NodeSupervisor.pauseNode`: sets the node's status to `PAUSED` if the
node exists, otherwise warns. -/
def SupervisorState.pauseNode (s : SupervisorState) (nid : NodeId) :
    SupervisorState × List LogEvent :=
  match lookupNode s.nodes nid with
  | some node =>
    ({ s with nodes := updateNode s.nodes nid (node.updateStatus NodeStatus.paused) },
      [LogEvent.nodePaused nid])
  | none => (s, [LogEvent.nodeNotFound nid])

/-- `NodeSupervisor.delayNode`: stores the delay if the node exists,
otherwise warns. -/
def SupervisorState.delayNode (s : SupervisorState) (nid : NodeId) (d : Nat) :
    SupervisorState × List LogEvent :=
  match lookupNode s.nodes nid with
  | some node =>
    ({ s with nodes := updateNode s.nodes nid (node.setDelay d) },
      [LogEvent.nodeDelayed nid d])
  | none => (s, [LogEvent.nodeNotFound nid])

/-- Result of a supervisor request: successor state, optional returned node
id, emitted log events, and the uncaught exception if the promise rejected. -/
structure HandleResult where
  state : SupervisorState
  ret : Option NodeId := none
  logs : List LogEvent := []
  thrown : Option String := none
  deriving Repr

/-- `NodeSupervisor.runNode`: executes the node on the data; errors thrown
by `node.execute` are NOT caught here and reject the request's promise. -/
def SupervisorState.runNode (env : Env) (s : SupervisorState) (nid : NodeId)
    (data : PipelineData) : HandleResult :=
  match lookupNode s.nodes nid with
  | some node =>
    let (node', err) := env.execute node data
    { state := { s with nodes := updateNode s.nodes nid node' }, thrown := err }
  | none => { state := s, logs := [LogEvent.nodeNotFound nid] }

/-- `NodeSupervisor.sendNodeData`: invokes `node.sendData()` inside a
`try`/`catch`; a thrown error is logged and swallowed, so the request's
promise always resolves. -/
def SupervisorState.sendNodeData (env : Env) (s : SupervisorState) (nid : NodeId) :
    HandleResult :=
  match lookupNode s.nodes nid with
  | some node =>
    let (node', err) := env.sendData node
    { state := { s with nodes := updateNode s.nodes nid node' },
      logs :=
        match err with
        | some e => [LogEvent.sendFailed nid e]
        | none => [] }
  | none => { state := s, logs := [LogEvent.nodeNotFound nid] }

/-- `NodeSupervisor.handleRequest`: dispatches a `SupervisorPayload` on its
signal; an unknown signal only logs a warning. -/
def SupervisorState.handleRequest (env : Env) (s : SupervisorState)
    (p : SupervisorPayload) : HandleResult :=
  if p.signal = NodeSignal.NODE_CREATE then
    let (s', nid, lgs) := s.createNode p.params
    { state := s', ret := some nid, logs := lgs }
  else if p.signal = NodeSignal.NODE_DELETE then
    let (s', lgs) := s.deleteNode p.id
    { state := s', logs := lgs }
  else if p.signal = NodeSignal.NODE_PAUSE then
    let (s', lgs) := s.pauseNode p.id
    { state := s', logs := lgs }
  else if p.signal = NodeSignal.NODE_DELAY then
    let (s', lgs) := s.delayNode p.id p.delay
    { state := s', logs := lgs }
  else if p.signal = NodeSignal.NODE_RUN then
    s.runNode env p.id p.data
  else if p.signal = NodeSignal.NODE_SEND_DATA then
    s.sendNodeData env p.id
  else
    { state := s, logs := [LogEvent.unknownSignal p.signal] }

/-- The chain id allocated by `broadcastNodeCreationSignal`:
`${uid}-${timestamp}-${randomUUID().slice(0, 8)}`, with `Date.now()` as a
natural `ts` (milliseconds) and the `randomUUID()` string as a parameter.
JS `slice(0, 8)` takes the first 8 characters. -/
def mkChainId (uid : String) (ts : Nat) (uuid : String) : String :=
  uid ++ "-" ++ Nat.repr ts ++ "-" ++ String.mk (uuid.data.take 8)

/-- The `BrodcastMessage` built by `broadcastNodeCreationSignal`: signal
`NODE_CREATE`, chain id as allocated, and the chain config mapped to its
`services` fields only. -/
def SupervisorState.creationMessage (s : SupervisorState) (ts : Nat)
    (uuid : String) : BrodcastMessage :=
  { signal := NodeSignal.NODE_CREATE,
    chain :=
      { id := mkChainId s.uid ts uuid,
        config := s.chainConfig.map (fun config => ⟨config.services⟩) } }

/-- `NodeSupervisor.broadcastNodeCreationSignal`: builds the message, hands
it to the injected broadcast transport, and logs success or failure; a
transport rejection is caught, so the supervisor's state is untouched and
nothing is rethrown.  Returns the message together with the log. -/
def SupervisorState.broadcastNodeCreationSignal (env : Env) (s : SupervisorState)
    (ts : Nat) (uuid : String) : BrodcastMessage × List LogEvent :=
  let message := s.creationMessage ts uuid
  match env.broadcast message with
  | none => (message, [LogEvent.broadcastOk message.chain.id])
  | some e => (message, [LogEvent.broadcastFailed e])

/-- The `for (const config of localConfigs) await this.createNode()` loop of
`startChain`: one fresh, dependency-free node per local config. -/
def SupervisorState.createLocalNodes (s : SupervisorState) :
    List ChainConfig → SupervisorState × List LogEvent
  | [] => (s, [])
  | _ :: rest =>
    let (s1, _, lg) := s.createNode []
    let (s2, lgs) := s1.createLocalNodes rest
    (s2, lg ++ lgs)

/-- Result of `startChain`: successor state, the messages handed to the
broadcast transport, and the log. -/
structure StartChainResult where
  state : SupervisorState
  broadcasts : List BrodcastMessage
  logs : List LogEvent
  deriving Repr

/-- `NodeSupervisor.startChain`: partitions the chain config by location,
creates one node per `local` config, and, when at least one `remote` config
exists, invokes `broadcastNodeCreationSignal`. -/
def SupervisorState.startChain (env : Env) (s : SupervisorState) (ts : Nat)
    (uuid : String) : StartChainResult :=
  let localConfigs := s.chainConfig.filter (fun config => config.location == "local")
  let remoteConfigs := s.chainConfig.filter (fun config => config.location == "remote")
  let (s1, lgs) := s.createLocalNodes localConfigs
  if remoteConfigs.length > 0 then
    let (message, blgs) := s1.broadcastNodeCreationSignal env ts uuid
    { state := s1, broadcasts := [message], logs := lgs ++ blgs }
  else
    { state := s1, broadcasts := [], logs := lgs }

/-- The nodes appended by `k` consecutive `createNode []` calls starting
from counter value `start`. -/
def freshNodes (start : NodeId) : Nat → List (NodeId × Node)
  | 0 => []
  | k + 1 => (start, Node.mkFresh start []) :: freshNodes (start + 1) k

/-- Opaque `PipelineMeta`, modelled as a string. -/
abbrev PipelineMeta := String

/-- A service entry of a stage config in the callbacks module: either a bare
service-id string or an object `{targetId, meta}`. -/
inductive ServiceEntry where
  | name (targetId : String)
  | obj (targetId : String) (meta : Option PipelineMeta)
  deriving DecidableEq, Repr

/-- `typeof service === 'string' ? service : service.targetId`. -/
def ServiceEntry.targetId : ServiceEntry → String
  | ServiceEntry.name t => t
  | ServiceEntry.obj t _ => t

/-- `typeof service === 'string' ? undefined : service.meta`. -/
def ServiceEntry.meta : ServiceEntry → Option PipelineMeta
  | ServiceEntry.name _ => none
  | ServiceEntry.obj _ m => m

/-- One stage config as seen by the broadcast-setup callback. -/
structure SetupStage where
  services : List ServiceEntry
  deriving DecidableEq, Repr

/-- The `chain` body of a `BrodcastSetupMessage`. -/
structure SetupChain where
  id : String
  config : List SetupStage
  deriving DecidableEq, Repr

/-- `BrodcastSetupMessage` (source's spelling kept). -/
structure BrodcastSetupMessage where
  signal : String
  chain : SetupChain
  deriving DecidableEq, Repr

/-- The POST body `{ chainId, remoteConfigs: config }` of a setup request. -/
structure SetupBody where
  chainId : String
  remoteConfigs : SetupStage
  deriving DecidableEq, Repr

/-- Observable effects of the broadcast-setup callback, one constructor per
`Logger.warn`/`post` call site. -/
inductive SetupAction where
  | warnEmptyServices
  | warnNoHost (targetId : String)
  | postSetup (url : String) (body : SetupBody)
  deriving DecidableEq, Repr

/-- Warn effects among the setup actions. -/
def SetupAction.isWarning : SetupAction → Bool
  | SetupAction.warnEmptyServices => true
  | SetupAction.warnNoHost _ => true
  | SetupAction.postSetup _ _ => false

/-- POST effects among the setup actions. -/
def SetupAction.isPost : SetupAction → Bool
  | SetupAction.postSetup _ _ => true
  | _ => false

/-- `HostResolverCallback`: `(targetId, meta?) → url?`. -/
abbrev HostResolver := String → Option PipelineMeta → Option String

/-- `new URL(path, host)` for a non-empty resolved base URL, modelled as
joining the base with the path. -/
def joinURL (path host : String) : String :=
  host ++ path

/-- The body of the `for (const config of chainConfigs)` loop of
`broadcastSetupCallback` for one stage: an empty `services` array is
skipped with a warning; otherwise the FIRST service entry is taken (further
entries are not inspected), the host is resolved, a falsy result
(`undefined` or the empty string) is skipped with a warning, and otherwise
one POST of `{chainId, remoteConfigs: config}` is issued to
`new URL(path, host)`. -/
def setupStage (chainId path : String) (hostResolver : HostResolver)
    (config : SetupStage) : List SetupAction :=
  match config.services with
  | [] => [SetupAction.warnEmptyServices]
  | service :: _ =>
    let targetId := service.targetId
    let meta := service.meta
    match hostResolver targetId meta with
    | none => [SetupAction.warnNoHost targetId]
    | some host =>
      if host = "" then [SetupAction.warnNoHost targetId]
      else [SetupAction.postSetup (joinURL path host) ⟨chainId, config⟩]

/-- The stage loop of `broadcastSetupCallback`, stage by stage in config
order; the `post` is fire-and-forget (`void post(url, data)`), so no stage
outcome influences the following stages. -/
def runSetupStages (chainId path : String) (hostResolver : HostResolver) :
    List SetupStage → List SetupAction
  | [] => []
  | config :: rest =>
    setupStage chainId path hostResolver config ++
      runSetupStages chainId path hostResolver rest

/-- `broadcastSetupCallback`: iterates the chain config of the message. -/
def broadcastSetupCallback (message : BrodcastSetupMessage)
    (hostResolver : HostResolver) (path : String) : List SetupAction :=
  runSetupStages message.chain.id path hostResolver message.chain.config

/-- `CallbackPayload` as used by the remote-service callback:
`{chainId?, targetId, meta?, data}`; an absent/`undefined` `chainId` is
`none`. -/
structure CallbackPayload where
  chainId : Option String
  targetId : String
  meta : Option PipelineMeta
  data : PipelineData
  deriving DecidableEq, Repr

/-- Errors thrown by `remoteServiceCallback` (the `catch` logs them and
rethrows, so they reach the caller). -/
inductive RSError where
  | missingChainId
  | noNextConnector (targetId : String)
  deriving DecidableEq, Repr

/-- `remoteServiceCallback`: a falsy `chainId` (undefined or empty) throws
`MissingChainId`; a falsy resolved host throws `NoNextConnector`; otherwise
the payload is POSTed (awaited) to `new URL(path, nextConnectorUrl)`.  The
`.ok` value is that single POST: target URL and body. -/
def remoteServiceCallback (cbPayload : CallbackPayload)
    (hostResolver : HostResolver) (path : String) :
    Except RSError (String × CallbackPayload) :=
  if cbPayload.chainId.getD "" = "" then
    Except.error RSError.missingChainId
  else
    match hostResolver cbPayload.targetId cbPayload.meta with
    | none => Except.error (RSError.noNextConnector cbPayload.targetId)
    | some nextConnectorUrl =>
      if nextConnectorUrl = "" then
        Except.error (RSError.noNextConnector cbPayload.targetId)
      else
        Except.ok (joinURL path nextConnectorUrl, cbPayload)

/-- Modelled from the spec: the Monitoring Agent (agents/MonitoringAgent.ts
is not among the sources) maps `chainId` to the chain's remote monitoring
host URL; `getRemoteMonitoringHost` looks the chain up and returns
`undefined` on a miss. -/
structure MonitoringAgent where
  remoteMonitoringHosts : List (String × String)
  deriving DecidableEq, Repr

/-- Modelled from the spec: `MonitoringAgent.getRemoteMonitoringHost`. -/
def MonitoringAgent.getRemoteMonitoringHost (agent : MonitoringAgent)
    (chainId : String) : Option String :=
  (agent.remoteMonitoringHosts.find? (fun p => p.1 == chainId)).map Prod.snd

/-- Log effects of the monitoring resolver, one constructor per `Logger`
call site in `defaultMonitoringResolver`. -/
inductive MonLogEvent where
  | resolvedMonitoringHost (host : String)
  | monitoringNotFound
  deriving DecidableEq, Repr

/-- `defaultMonitoringResolver`: returns the registered monitoring host; on
a miss the internal `throw new Error('monitoring not found')` is caught,
logged, and the function falls through returning `undefined`. -/
def defaultMonitoringResolver (agent : MonitoringAgent) (chainId : String) :
    Option String × List MonLogEvent :=
  match agent.getRemoteMonitoringHost chainId with
  | some monitoringHost =>
    (some monitoringHost, [MonLogEvent.resolvedMonitoringHost monitoringHost])
  | none => (none, [MonLogEvent.monitoringNotFound])

/-- Whether the first list of characters leads the second. -/
def isCharListLead : List Char → List Char → Bool
  | [], _ => true
  | _ :: _, [] => false
  | c :: cs, d :: ds => c == d && isCharListLead cs ds

/-- Whether a string is an absolute URL (has an explicit scheme). -/
def isAbsoluteURL (s : String) : Bool :=
  isCharListLead "http://".data s.data || isCharListLead "https://".data s.data

/-- Model of the WHATWG `new URL(input, base)` constructor restricted to
what these claims need: with a defined (assumed absolute) base the result
joins base and input; with an `undefined` base, a non-absolute input throws
an Invalid-URL `TypeError`. -/
def newURL (input : String) (base : Option String) : Except String String :=
  match base with
  | some b => Except.ok (joinURL input b)
  | none =>
    if isAbsoluteURL input then Except.ok input
    else Except.error "Invalid URL"

/-- `BroadcastReportingMessage{chainId, …}`; the rest of the message is
opaque to the callback and modelled as a string. -/
structure BroadcastReportingMessage where
  chainId : String
  body : String
  deriving DecidableEq, Repr

/-- `broadcastReportingCallback` wired with `defaultMonitoringResolver`
(the default installed by `setMonitoringCallbacks`): resolves the
monitoring host and POSTs the message to `new URL(path, monitoringHost)` —
with NO guard on an unresolved (undefined) host.  The `.ok` value is the
POST (url and message); `.error` is the exception that rejects the
callback's promise. -/
def broadcastReportingCallback (agent : MonitoringAgent)
    (message : BroadcastReportingMessage) (path : String) :
    Except String (String × BroadcastReportingMessage) × List MonLogEvent :=
  let (monitoringHost, lgs) := defaultMonitoringResolver agent message.chainId
  match newURL path monitoringHost with
  | Except.error e => (Except.error e, lgs)
  | Except.ok url => (Except.ok (url, message), lgs)

/-! ### Helper lemmas -/

lemma updateNode_lookup_self (l : List (NodeId × Node)) (nid : NodeId) (v : Node)
    (h : lookupNode l nid = some v) : updateNode l nid v = l := by
  induction l with
  | nil => simp [lookupNode] at h
  | cons p rest ih =>
    obtain ⟨k, w⟩ := p
    by_cases hk : k = nid
    · subst hk
      simp [lookupNode] at h
      simp [updateNode, h]
    · simp [lookupNode, hk] at h
      simp [updateNode, hk, ih h]

/-- Concrete environment: broadcast succeeds, node operations are inert. -/
def env0 : Env :=
  ⟨fun _ => none, fun n _ => (n, none), fun n => (n, none)⟩

/-- Concrete environment whose broadcast transport rejects. -/
def envFail : Env :=
  ⟨fun _ => some "ECONNREFUSED", fun n _ => (n, none), fun n => (n, none)⟩

/-- Concrete environment whose `Node.sendData` throws. -/
def envSendThrows : Env :=
  ⟨fun _ => none, fun n _ => (n, none), fun n => (n, some "Next connector URI not found")⟩

/-- Concrete supervisor state with an empty nodes map. -/
def s0 : SupervisorState :=
  ⟨"ci", [], false, [], [], 0⟩

/-- Concrete node, paused. -/
def pausedNode0 : Node :=
  ⟨0, [], NodeStatus.paused, 0⟩

/-- Concrete supervisor state holding the single paused node `0`. -/
def s1 : SupervisorState :=
  ⟨"ci", [(0, pausedNode0)], false, [], [], 1⟩

/-! ### Claims -/

/-- C4: for every chain config list, the message built by
`broadcastNodeCreationSignal` has signal `NODE_CREATE` and carries a chain
whose config is exactly the supervisor's current chain config list in
order, each stage reduced to its `services` field with `location`
stripped. -/
theorem c4_creation_message (env : Env) (s : SupervisorState) (ts : Nat) (uuid : String) :
    (s.broadcastNodeCreationSignal env ts uuid).1.signal = NodeSignal.NODE_CREATE ∧
    (s.broadcastNodeCreationSignal env ts uuid).1.chain.config
      = s.chainConfig.map (fun config => ⟨config.services⟩) := by
  have hmsg : (s.broadcastNodeCreationSignal env ts uuid).1 = s.creationMessage ts uuid := by
    unfold SupervisorState.broadcastNodeCreationSignal
    cases h : env.broadcast (s.creationMessage ts uuid) <;> simp [h]
  rw [hmsg]
  exact ⟨rfl, rfl⟩

/-- C8: for every supervisor state and every payload whose signal is none of
the six `NODE_*` signals, `handleRequest` leaves the supervisor state
untouched, returns nothing, throws nothing, and only logs the
unknown-signal warning. -/
theorem c8_unknown_signal_no_op (env : Env) (s : SupervisorState) (p : SupervisorPayload)
    (h : p.signal ∉ [NodeSignal.NODE_CREATE, NodeSignal.NODE_DELETE,
      NodeSignal.NODE_PAUSE, NodeSignal.NODE_DELAY, NodeSignal.NODE_RUN,
      NodeSignal.NODE_SEND_DATA]) :
    s.handleRequest env p =
      { state := s, ret := none, logs := [LogEvent.unknownSignal p.signal],
        thrown := none } := by
  simp only [List.mem_cons, List.not_mem_nil, or_false, not_or] at h
  obtain ⟨h1, h2, h3, h4, h5, h6⟩ := h
  simp [SupervisorState.handleRequest, h1, h2, h3, h4, h5, h6]

/-- Witness for C8 at the concrete payload `{signal: "bogus"}`. -/
theorem c8_witness :
    SupervisorState.handleRequest env0 s0 { signal := "bogus" } =
      { state := s0, ret := none, logs := [LogEvent.unknownSignal "bogus"],
        thrown := none } :=
  c8_unknown_signal_no_op env0 s0 { signal := "bogus" } (by decide)

/-- C9: `NODE_DELETE` on an id absent from the nodes map leaves the
supervisor state (nodes map and monitoring included) unchanged and only
warns; `NODE_PAUSE` on a node already `PAUSED` leaves the supervisor state
unchanged. -/
theorem c9_delete_pause_idempotent (env : Env) (s : SupervisorState) (nid : NodeId) :
    (lookupNode s.nodes nid = none →
      s.handleRequest env { signal := NodeSignal.NODE_DELETE, id := nid }
        = { state := s, ret := none, logs := [LogEvent.nodeNotFound nid],
            thrown := none }) ∧
    (∀ node, lookupNode s.nodes nid = some node → node.status = NodeStatus.paused →
      (s.handleRequest env { signal := NodeSignal.NODE_PAUSE, id := nid }).state = s) := by
  constructor
  · intro hnone
    simp [SupervisorState.handleRequest, SupervisorState.deleteNode, hnone,
      show NodeSignal.NODE_DELETE ≠ NodeSignal.NODE_CREATE from by decide]
  · intro node hsome hpaused
    have hupd : node.updateStatus NodeStatus.paused = node := by
      cases node
      simp only [Node.updateStatus]
      simp_all
    simp only [SupervisorState.handleRequest,
      show NodeSignal.NODE_PAUSE ≠ NodeSignal.NODE_CREATE from by decide,
      show NodeSignal.NODE_PAUSE ≠ NodeSignal.NODE_DELETE from by decide,
      if_neg, if_pos, reduceIte]
    simp [SupervisorState.pauseNode, hsome, hupd, updateNode_lookup_self _ _ _ hsome]

/-- Witness for C9: deleting the unknown id `7` in `s1` is a no-op, and
pausing the already-paused node `0` leaves the state unchanged. -/
theorem c9_witness :
    (SupervisorState.handleRequest env0 s1 { signal := NodeSignal.NODE_DELETE, id := 7 }
      = { state := s1, ret := none, logs := [LogEvent.nodeNotFound 7], thrown := none }) ∧
    (SupervisorState.handleRequest env0 s1
        { signal := NodeSignal.NODE_PAUSE, id := 0 }).state = s1 :=
  ⟨(c9_delete_pause_idempotent env0 s1 7).1 (by decide),
    (c9_delete_pause_idempotent env0 s1 0).2 pausedNode0 (by decide) (by decide)⟩

/-- C10: for every node id present in the nodes map, `NODE_SEND_DATA` never
rejects: whatever `Node.sendData` does (including throwing a rethrown
remote-service callback failure), the error is caught and logged inside
`sendNodeData`, and the request resolves normally. -/
theorem c10_send_data_never_rejects (env : Env) (s : SupervisorState) (nid : NodeId)
    (node : Node) (h : lookupNode s.nodes nid = some node) :
    (s.handleRequest env { signal := NodeSignal.NODE_SEND_DATA, id := nid }).thrown
        = none ∧
    (∀ e, (env.sendData node).2 = some e →
      LogEvent.sendFailed nid e ∈
        (s.handleRequest env { signal := NodeSignal.NODE_SEND_DATA, id := nid }).logs) := by
  have hdispatch :
      s.handleRequest env { signal := NodeSignal.NODE_SEND_DATA, id := nid }
        = s.sendNodeData env nid := by
    simp [SupervisorState.handleRequest,
      show NodeSignal.NODE_SEND_DATA ≠ NodeSignal.NODE_CREATE from by decide,
      show NodeSignal.NODE_SEND_DATA ≠ NodeSignal.NODE_DELETE from by decide,
      show NodeSignal.NODE_SEND_DATA ≠ NodeSignal.NODE_PAUSE from by decide,
      show NodeSignal.NODE_SEND_DATA ≠ NodeSignal.NODE_DELAY from by decide,
      show NodeSignal.NODE_SEND_DATA ≠ NodeSignal.NODE_RUN from by decide]
  rw [hdispatch]
  unfold SupervisorState.sendNodeData
  rw [h]
  constructor
  · cases env.sendData node with
    | mk node' err => cases err <;> rfl
  · intro e he
    cases hsd : env.sendData node with
    | mk node' err =>
      rw [hsd] at he
      simp at he
      subst he
      simp [hsd]

/-- Witness for C10: node `0` is present in `s1` and its `sendData` throws,
yet the request resolves and the failure is logged. -/
theorem c10_witness :
    (SupervisorState.handleRequest envSendThrows s1
        { signal := NodeSignal.NODE_SEND_DATA, id := 0 }).thrown = none ∧
    LogEvent.sendFailed 0 "Next connector URI not found" ∈
      (SupervisorState.handleRequest envSendThrows s1
        { signal := NodeSignal.NODE_SEND_DATA, id := 0 }).logs :=
  ⟨(c10_send_data_never_rejects envSendThrows s1 0 pausedNode0 (by decide)).1,
    (c10_send_data_never_rejects envSendThrows s1 0 pausedNode0 (by decide)).2
      "Next connector URI not found" rfl⟩

lemma createLocalNodes_nodes (l : List ChainConfig) (s : SupervisorState) :
    ((s.createLocalNodes l).1).nodes = s.nodes ++ freshNodes s.nextNodeId l.length := by
  induction l generalizing s with
  | nil => simp [SupervisorState.createLocalNodes, freshNodes]
  | cons c rest ih =>
    simp [SupervisorState.createLocalNodes, SupervisorState.createNode, ih,
      freshNodes, Node.mkFresh]

lemma createLocalNodes_nextNodeId (l : List ChainConfig) (s : SupervisorState) :
    ((s.createLocalNodes l).1).nextNodeId = s.nextNodeId + l.length := by
  induction l generalizing s with
  | nil => simp [SupervisorState.createLocalNodes]
  | cons c rest ih =>
    simp [SupervisorState.createLocalNodes, SupervisorState.createNode, ih]
    rw [Nat.add_right_comm]
    exact Nat.add_assoc _ _ _

lemma createLocalNodes_uid (l : List ChainConfig) (s : SupervisorState) :
    ((s.createLocalNodes l).1).uid = s.uid := by
  induction l generalizing s with
  | nil => simp [SupervisorState.createLocalNodes]
  | cons c rest ih =>
    simp [SupervisorState.createLocalNodes, SupervisorState.createNode, ih]

lemma createLocalNodes_chainConfig (l : List ChainConfig) (s : SupervisorState) :
    ((s.createLocalNodes l).1).chainConfig = s.chainConfig := by
  induction l generalizing s with
  | nil => simp [SupervisorState.createLocalNodes]
  | cons c rest ih =>
    simp [SupervisorState.createLocalNodes, SupervisorState.createNode, ih]

lemma freshNodes_length (k : Nat) (start : NodeId) :
    (freshNodes start k).length = k := by
  induction k generalizing start with
  | zero => rfl
  | succ k ih => simp [freshNodes, ih]

lemma freshNodes_key_ge (k : Nat) (start : NodeId) :
    ∀ p ∈ freshNodes start k, start ≤ p.1 := by
  induction k generalizing start with
  | zero => simp [freshNodes]
  | succ k ih =>
    intro p hp
    simp only [freshNodes, List.mem_cons] at hp
    rcases hp with h | h
    · subst h; exact Nat.le_refl _
    · exact Nat.le_of_succ_le (ih (start + 1) p h)

lemma creationMessage_congr (s1 s2 : SupervisorState) (ts : Nat) (uuid : String)
    (huid : s1.uid = s2.uid) (hcfg : s1.chainConfig = s2.chainConfig) :
    s1.creationMessage ts uuid = s2.creationMessage ts uuid := by
  simp [SupervisorState.creationMessage, huid, hcfg]

/-- The state reached by `startChain` is the one `createLocalNodes` built on
the local configs (the broadcast never mutates the supervisor). -/
lemma startChain_state (env : Env) (s : SupervisorState) (ts : Nat) (uuid : String) :
    (s.startChain env ts uuid).state
      = (s.createLocalNodes
          (s.chainConfig.filter (fun config => config.location == "local"))).1 := by
  unfold SupervisorState.startChain
  by_cases h :
      (s.chainConfig.filter (fun config => config.location == "remote")).length > 0 <;>
    simp [h]

/-- C1: `startChain` appends to the nodes map exactly one fresh node per
`local` config (ids all new relative to the existing map), and hands a
node-creation broadcast message to the transport if and only if at least
one config has location `remote`. -/
theorem c1_startChain_locals_and_broadcast (env : Env) (s : SupervisorState)
    (ts : Nat) (uuid : String)
    (hfresh : ∀ p ∈ s.nodes, p.1 < s.nextNodeId) :
    (s.startChain env ts uuid).state.nodes
      = s.nodes ++ freshNodes s.nextNodeId
          (s.chainConfig.filter (fun config => config.location == "local")).length ∧
    (freshNodes s.nextNodeId
        (s.chainConfig.filter (fun config => config.location == "local")).length).length
      = (s.chainConfig.filter (fun config => config.location == "local")).length ∧
    (∀ p ∈ freshNodes s.nextNodeId
        (s.chainConfig.filter (fun config => config.location == "local")).length,
      ∀ q ∈ s.nodes, p.1 ≠ q.1) ∧
    ((s.startChain env ts uuid).broadcasts ≠ [] ↔
      ∃ config ∈ s.chainConfig, config.location = "remote") := by
  refine ⟨?_, freshNodes_length _ _, ?_, ?_⟩
  · rw [startChain_state, createLocalNodes_nodes]
  · intro p hp q hq
    have h1 := freshNodes_key_ge _ _ p hp
    have h2 := hfresh q hq
    exact (Nat.lt_of_lt_of_le h2 h1).ne'
  · unfold SupervisorState.startChain
    by_cases h :
        (s.chainConfig.filter (fun config => config.location == "remote")).length > 0
    · have hex : ∃ config ∈ s.chainConfig, config.location = "remote" := by
        have hne : s.chainConfig.filter (fun config => config.location == "remote") ≠ [] := by
          intro hnil
          rw [hnil] at h
          simp at h
        obtain ⟨x, hx⟩ := List.exists_mem_of_ne_nil _ hne
        have hx' := List.mem_filter.mp hx
        exact ⟨x, hx'.1, by simpa using hx'.2⟩
      simp [h, hex]
    · have hnone : ¬ ∃ config ∈ s.chainConfig, config.location = "remote" := by
        rintro ⟨config, hc, hloc⟩
        apply h
        have hmem : config ∈ s.chainConfig.filter (fun config => config.location == "remote") :=
          List.mem_filter.mpr ⟨hc, by simp [hloc]⟩
        exact List.length_pos.mpr (List.ne_nil_of_mem hmem)
      simp [h, hnone]

/-- Concrete chain config: one local stage, one remote stage. -/
def sC1 : SupervisorState :=
  ⟨"ci", [], false, [], [⟨["A"], "local"⟩, ⟨["B"], "remote"⟩], 0⟩

/-- Witness for C1 on a config with one local and one remote stage. -/
theorem c1_witness :
    (SupervisorState.startChain env0 sC1 5 "0123abcd").state.nodes
        = sC1.nodes ++ freshNodes 0 1 ∧
    ((SupervisorState.startChain env0 sC1 5 "0123abcd").broadcasts ≠ [] ↔
      ∃ config ∈ sC1.chainConfig, config.location = "remote") := by
  have h := c1_startChain_locals_and_broadcast env0 sC1 5 "0123abcd" (by decide)
  exact ⟨h.1, h.2.2.2⟩

/-- C6: when at least one `remote` config exists and the broadcast
transport rejects, the failure is logged as a broadcast-failure error, the
request still resolves (the exception is caught), and the local nodes
created by `startChain` remain registered — no rollback. -/
theorem c6_broadcast_failure_no_rollback (env : Env) (s : SupervisorState)
    (ts : Nat) (uuid : String) (err : String)
    (hremote : (s.chainConfig.filter (fun config => config.location == "remote")).length > 0)
    (hfail : env.broadcast (s.creationMessage ts uuid) = some err) :
    (s.startChain env ts uuid).state.nodes
      = s.nodes ++ freshNodes s.nextNodeId
          (s.chainConfig.filter (fun config => config.location == "local")).length ∧
    LogEvent.broadcastFailed err ∈ (s.startChain env ts uuid).logs := by
  constructor
  · rw [startChain_state, createLocalNodes_nodes]
  · unfold SupervisorState.startChain
    simp only [hremote, if_pos]
    have hmsg :
        ((s.createLocalNodes
            (s.chainConfig.filter (fun config => config.location == "local"))).1).creationMessage
          ts uuid = s.creationMessage ts uuid :=
      creationMessage_congr _ _ ts uuid (createLocalNodes_uid _ _)
        (createLocalNodes_chainConfig _ _)
    unfold SupervisorState.broadcastNodeCreationSignal
    rw [hmsg]
    simp [hfail]

/-- Witness for C6: with the rejecting transport `envFail` on `sC1`'s
config, the created local node survives and the failure is logged. -/
theorem c6_witness :
    (SupervisorState.startChain envFail sC1 5 "0123abcd").state.nodes
        = sC1.nodes ++ freshNodes 0 1 ∧
    LogEvent.broadcastFailed "ECONNREFUSED" ∈
      (SupervisorState.startChain envFail sC1 5 "0123abcd").logs :=
  c6_broadcast_failure_no_rollback envFail sC1 5 "0123abcd" "ECONNREFUSED"
    (by decide) rfl

/-- Concrete host resolver mapping `a` to `http://peerA`. -/
def resolverA : HostResolver :=
  fun targetId _ => if targetId == "a" then some "http://peerA" else none

/-- Concrete host resolver mapping `B` to `http://peer2`. -/
def resolverB : HostResolver :=
  fun targetId _ => if targetId == "B" then some "http://peer2" else none

/-- Concrete stage with two service entries. -/
def stage2 : SetupStage :=
  ⟨[ServiceEntry.name "a", ServiceEntry.name "b"]⟩

/-- Concrete setup message whose single stage carries two service entries. -/
def msgC2 : BrodcastSetupMessage :=
  ⟨NodeSignal.NODE_CREATE, ⟨"ch", [stage2]⟩⟩

/-- C2 counterexample: a stage with TWO service entries whose first entry
resolves produces exactly one POST and NO warning — the callback never
warns about the additional entries, contrary to the claim. -/
theorem c2_counterexample :
    stage2.services.length = 2 ∧
    (broadcastSetupCallback msgC2 resolverA "/setup").filter SetupAction.isWarning
      = [] ∧
    broadcastSetupCallback msgC2 resolverA "/setup"
      = [SetupAction.postSetup "http://peerA/setup" ⟨"ch", stage2⟩] :=
  ⟨rfl, rfl, rfl⟩

/-- Which URL, if any, a setup action POSTs to. -/
def SetupAction.target : SetupAction → Option String
  | SetupAction.postSetup url _ => some url
  | _ => none

/-- C2 (amended): the broadcast-setup callback processes the stages in
order and independently (stage outcomes are concatenated, so no stage
prevents the rest); an empty-services stage yields exactly one warning and
no POST; a first entry whose host resolves to nothing (undefined or empty)
yields exactly one warning and no POST; a resolved first entry yields
exactly one POST to the host joined with the setup path with body
`{chainId, remoteConfigs: stage config}`; and entries after the first are
silently ignored for addressing — they trigger no warning and change
neither the POST target nor the warnings, though they ride along inside
the POSTed stage config. -/
theorem c2_broadcast_setup_per_stage (chainId path : String)
    (hostResolver : HostResolver) :
    (∀ message, broadcastSetupCallback message hostResolver path
        = runSetupStages message.chain.id path hostResolver message.chain.config) ∧
    (∀ config rest, runSetupStages chainId path hostResolver (config :: rest)
        = setupStage chainId path hostResolver config ++
          runSetupStages chainId path hostResolver rest) ∧
    (∀ config, config.services = [] →
      setupStage chainId path hostResolver config = [SetupAction.warnEmptyServices]) ∧
    (∀ config service more, config.services = service :: more →
      (hostResolver service.targetId service.meta).getD "" = "" →
      setupStage chainId path hostResolver config
        = [SetupAction.warnNoHost service.targetId]) ∧
    (∀ config service more host, config.services = service :: more →
      hostResolver service.targetId service.meta = some host → host ≠ "" →
      setupStage chainId path hostResolver config
        = [SetupAction.postSetup (joinURL path host) ⟨chainId, config⟩]) ∧
    (∀ service more,
      (setupStage chainId path hostResolver ⟨service :: more⟩).map SetupAction.target
          = (setupStage chainId path hostResolver ⟨[service]⟩).map SetupAction.target ∧
      (setupStage chainId path hostResolver ⟨service :: more⟩).map SetupAction.isWarning
          = (setupStage chainId path hostResolver ⟨[service]⟩).map SetupAction.isWarning) := by
  refine ⟨fun message => rfl, fun config rest => rfl, ?_, ?_, ?_, ?_⟩
  · intro config hempty
    obtain ⟨services⟩ := config
    cases hempty
    rfl
  · intro config service more hcons hfalsy
    obtain ⟨services⟩ := config
    cases hcons
    cases hres : hostResolver service.targetId service.meta with
    | none => simp [setupStage, hres]
    | some host =>
      rw [hres] at hfalsy
      simp only [Option.getD] at hfalsy
      simp [setupStage, hres, hfalsy]
  · intro config service more host hcons hres hne
    obtain ⟨services⟩ := config
    cases hcons
    simp [setupStage, hres, hne]
  · intro service more
    cases hres : hostResolver service.targetId service.meta with
    | none => simp [setupStage, hres]
    | some host =>
      by_cases hne : host = "" <;>
        simp [setupStage, hres, hne, SetupAction.target, SetupAction.isWarning]

/-- Witness for C2's amended theorem: empty-services and unresolved stages
each yield a single warning and no POST. -/
theorem c2_witness :
    setupStage "ch" "/setup" resolverA ⟨[]⟩ = [SetupAction.warnEmptyServices] ∧
    setupStage "ch" "/setup" resolverA ⟨[ServiceEntry.name "z"]⟩
      = [SetupAction.warnNoHost "z"] :=
  ⟨(c2_broadcast_setup_per_stage "ch" "/setup" resolverA).2.2.1 ⟨[]⟩ rfl,
    (c2_broadcast_setup_per_stage "ch" "/setup" resolverA).2.2.2.1
      ⟨[ServiceEntry.name "z"]⟩ (ServiceEntry.name "z") [] rfl (by decide)⟩

/-- C3 counterexample: a payload whose `chainId` is the EMPTY string (so not
`undefined`) and whose target resolves still raises `MissingChainId` and
issues no POST — the code checks JS falsiness, not only `undefined`. -/
theorem c3_counterexample :
    (some "" : Option String) ≠ none ∧
    (resolverB "B" none).isSome = true ∧
    remoteServiceCallback ⟨some "", "B", none, "42"⟩ resolverB "/run"
      = Except.error RSError.missingChainId :=
  ⟨by decide, rfl, rfl⟩

/-- C3 (amended): for every payload given to the remote-service callback —
a falsy `chainId` (undefined or empty) raises `MissingChainId` with no
POST; otherwise a falsy resolved host (undefined or empty) raises
`NoNextConnector` with no POST; otherwise exactly one POST of the payload
is issued to the resolved URL joined with the run path; and every error is
rethrown to the callback's caller. -/
theorem c3_remote_service_callback (cbPayload : CallbackPayload)
    (hostResolver : HostResolver) (path : String) :
    (cbPayload.chainId.getD "" = "" →
      remoteServiceCallback cbPayload hostResolver path
        = Except.error RSError.missingChainId) ∧
    (cbPayload.chainId.getD "" ≠ "" →
      (hostResolver cbPayload.targetId cbPayload.meta).getD "" = "" →
      remoteServiceCallback cbPayload hostResolver path
        = Except.error (RSError.noNextConnector cbPayload.targetId)) ∧
    (∀ url, cbPayload.chainId.getD "" ≠ "" →
      hostResolver cbPayload.targetId cbPayload.meta = some url → url ≠ "" →
      remoteServiceCallback cbPayload hostResolver path
        = Except.ok (joinURL path url, cbPayload)) := by
  refine ⟨?_, ?_, ?_⟩
  · intro hfalsy
    simp [remoteServiceCallback, hfalsy]
  · intro hsome hfalsy
    cases hres : hostResolver cbPayload.targetId cbPayload.meta with
    | none => simp [remoteServiceCallback, hsome, hres]
    | some url =>
      rw [hres] at hfalsy
      simp only [Option.getD] at hfalsy
      simp [remoteServiceCallback, hsome, hres, hfalsy]
  · intro url hsome hres hne
    simp [remoteServiceCallback, hsome, hres, hne]

/-- Witness for C3's amended theorem: a well-formed payload to a resolvable
target yields the single POST to `http://peer2/run`. -/
theorem c3_witness :
    remoteServiceCallback ⟨some "chain-1", "B", none, "42"⟩ resolverB "/run"
      = Except.ok ("http://peer2/run", ⟨some "chain-1", "B", none, "42"⟩) :=
  (c3_remote_service_callback ⟨some "chain-1", "B", none, "42"⟩ resolverB "/run").2.2
    "http://peer2" (by decide) rfl (by decide)

/-- A Monitoring Agent with no registered remote monitoring host. -/
def agentEmpty : MonitoringAgent :=
  ⟨[]⟩

/-- C7: evaluation at the failing input.  For a chainId with no registered
monitoring host, `defaultMonitoringResolver` does log the miss and return
`undefined` — but `broadcastReportingCallback` then calls
`new URL(path, undefined)`, which for the relative notify path throws an
Invalid-URL `TypeError`: the callback's promise REJECTS, instead of the
report being dropped non-fatally as the specification requires. -/
theorem c7_monitoring_miss_rejects :
    (defaultMonitoringResolver agentEmpty "c1").1 = none ∧
    (defaultMonitoringResolver agentEmpty "c1").2
      = [MonLogEvent.monitoringNotFound] ∧
    (broadcastReportingCallback agentEmpty ⟨"c1", "report"⟩ "/notify").1
      = Except.error "Invalid URL" :=
  ⟨rfl, rfl, rfl⟩

lemma digitChar_isDigit (m : Nat) (h : m < 10) : (Nat.digitChar m).isDigit = true := by
  interval_cases m <;> decide

lemma toDigitsCore_all_isDigit (fuel : Nat) :
    ∀ (n : Nat) (ds : List Char), ds.all Char.isDigit = true →
      (Nat.toDigitsCore 10 fuel n ds).all Char.isDigit = true := by
  induction fuel with
  | zero => intro n ds h; simpa [Nat.toDigitsCore] using h
  | succ fuel ih =>
    intro n ds h
    simp only [Nat.toDigitsCore]
    by_cases h10 : n / 10 = 0
    · simp [h10, digitChar_isDigit _ (Nat.mod_lt _ (by decide)), h]
    · simp only [h10, if_neg, ite_false]
      exact ih _ _ (by simp [digitChar_isDigit _ (Nat.mod_lt _ (by decide)), h])

lemma toDigitsCore_ne_nil (fuel : Nat) :
    ∀ (n : Nat) (ds : List Char), ds ≠ [] → Nat.toDigitsCore 10 fuel n ds ≠ [] := by
  induction fuel with
  | zero => intro n ds h; simpa [Nat.toDigitsCore] using h
  | succ fuel ih =>
    intro n ds h
    simp only [Nat.toDigitsCore]
    by_cases h10 : n / 10 = 0
    · simp [h10]
    · simp only [h10, if_neg, ite_false]
      exact ih _ _ (by simp)

lemma toDigits_ne_nil (n : Nat) : Nat.toDigits 10 n ≠ [] := by
  unfold Nat.toDigits
  simp only [Nat.toDigitsCore]
  by_cases h10 : n / 10 = 0
  · simp [h10]
  · simp only [h10, if_neg, ite_false]
    exact toDigitsCore_ne_nil _ _ _ (by simp)

lemma repr_all_isDigit (n : Nat) : (Nat.repr n).data.all Char.isDigit = true := by
  show (Nat.toDigits 10 n).all Char.isDigit = true
  unfold Nat.toDigits
  exact toDigitsCore_all_isDigit _ _ _ rfl

lemma repr_ne_nil (n : Nat) : (Nat.repr n).data ≠ [] :=
  toDigits_ne_nil n

/-- Lowercase hexadecimal digits, the `[0-9a-f]` character class. -/
def isLowerHexDigit (c : Char) : Bool :=
  c.isDigit || ('a' ≤ c && c ≤ 'f')

/-- C5: the chain id allocated by `broadcastNodeCreationSignal` decomposes
as the supervisor's uid, a hyphen, the decimal milliseconds timestamp (a
non-empty digit string), a hyphen, and an 8-character lowercase-hex suffix
(the first 8 characters of the random UUID, which are hex in every UUID);
for uid `ci` this is exactly the regex `ci-[0-9]+-[0-9a-f]{8}` anchored on
both sides. -/
theorem c5_chainId_format (env : Env) (s : SupervisorState) (ts : Nat) (uuid : String)
    (hlen : 8 ≤ uuid.data.length)
    (hhex : (uuid.data.take 8).all isLowerHexDigit = true) :
    ∃ mid suf : List Char,
      ((s.broadcastNodeCreationSignal env ts uuid).1.chain.id).data
        = s.uid.data ++ '-' :: mid ++ '-' :: suf ∧
      mid ≠ [] ∧ mid.all Char.isDigit = true ∧
      suf.length = 8 ∧ suf.all isLowerHexDigit = true := by
  have hmsg : (s.broadcastNodeCreationSignal env ts uuid).1 = s.creationMessage ts uuid := by
    unfold SupervisorState.broadcastNodeCreationSignal
    cases h : env.broadcast (s.creationMessage ts uuid) <;> simp [h]
  refine ⟨(Nat.repr ts).data, uuid.data.take 8, ?_, repr_ne_nil ts,
    repr_all_isDigit ts, ?_, hhex⟩
  · rw [hmsg]
    show (mkChainId s.uid ts uuid).data = _
    simp [mkChainId]
  · rw [List.length_take]
    exact Nat.min_eq_left hlen

/-- Witness for C5 with uid `ci`, timestamp `5`, and a concrete UUID. -/
theorem c5_witness :
    ∃ mid suf : List Char,
      ((SupervisorState.broadcastNodeCreationSignal env0 sC1 5
          "0123abcd-4567-ffff").1.chain.id).data
        = sC1.uid.data ++ '-' :: mid ++ '-' :: suf ∧
      mid ≠ [] ∧ mid.all Char.isDigit = true ∧
      suf.length = 8 ∧ suf.all isLowerHexDigit = true :=
  c5_chainId_format env0 sC1 5 "0123abcd-4567-ffff" (by decide) (by decide)

end DPCP
